import Mathlib

set_option autoImplicit false

namespace Cannyls

/-!
Shallow embedding of the cannyls device runtime (src/device/mod.rs and
src/device/long_queue_policy.rs).  The worker thread, deadline queue, overload
detector, request builder and lump/metrics modules are referenced by the code
under src/ but their sources are not part of it; those parts are modelled from
the specification, each such definition marked by a doc comment starting with
"Modelled from the spec:".
-/

/-- Modelled from the spec: the deadline classification (module deadline is not
under src/).  Immediate is earliest, Infinity is behind all timed requests. -/
inductive Deadline where
  | immediate
  | within (d : Nat)
  | infinity
deriving DecidableEq

/-- The three overload-reaction policies, from
src/device/long_queue_policy.rs.  The f64 ratio field is modelled as a
rational number. -/
inductive LongQueuePolicy where
  | refuseNewRequests (ratio : ℚ)
  | stop
  | drop (ratio : ℚ)
deriving DecidableEq

/-- The default policy, from the Default impl in
src/device/long_queue_policy.rs: RefuseNewRequests with ratio 1.0. -/
def LongQueuePolicy.default : LongQueuePolicy := .refuseNewRequests 1

/-- The part of a queued command that the overload machinery inspects: its
prioritized flag. -/
structure Command where
  prioritized : Bool
deriving DecidableEq

/-- Modelled from the spec: the overload detector state (the worker module
holding it is not under src/).  busy_since records the time at which the
detector first observed the queue length at or above busy_threshold. -/
structure OverloadDetector where
  busy_threshold : Nat
  max_keep_busy_duration : Nat
  busy_since : Option Nat
deriving DecidableEq

/-- Modelled from the spec: one evaluation of the overload detector with the
current queue length.  If length is at least the threshold and busy_since is
unset, busy_since is recorded now and the call reports no overload (the first
call after becoming busy never reports overload: the duration measurement
begins at that call); if busy_since is already set, overload is reported iff
now - busy_since has reached max_keep_busy_duration; if length is below the
threshold, busy_since is cleared. -/
def check_overload (det : OverloadDetector) (queueLen now : Nat) :
    OverloadDetector × Bool :=
  if det.busy_threshold ≤ queueLen then
    match det.busy_since with
    | none => ({ det with busy_since := some now }, false)
    | some t => (det, decide (det.max_keep_busy_duration ≤ now - t))
  else
    ({ det with busy_since := none }, false)

/-- Modelled from the spec: the Bernoulli gate used by the refuse and drop
policies.  A uniform draw u from [0,1) fires the gate iff u < ratio, so that
the gate fires with probability ratio; with ratio 1.0 every valid draw
fires it. -/
def gate_fires (ratio u : ℚ) : Bool := decide (u < ratio)

/-- Modelled from the spec: the admission check run by the worker when a
command crosses the inbox, before it enters the deadline queue.  The detector
is updated on every enqueue with the current queue length.  Prioritized
commands bypass all policies.  RefuseNewRequests rejects a non-prioritized
command iff the detector reports overload and the probabilistic gate fires;
Stop and Drop admit everything at enqueue time.  Returns the updated detector
and whether the command was admitted. -/
def admit_command (p : LongQueuePolicy) (det : OverloadDetector)
    (queueLen : Nat) (c : Command) (now : Nat) (u : ℚ) :
    OverloadDetector × Bool :=
  match p with
  | .refuseNewRequests ratio =>
      let r := check_overload det queueLen now
      if c.prioritized then (r.1, true)
      else (r.1, !(r.2 && gate_fires ratio u))
  | .stop => ((check_overload det queueLen now).1, true)
  | .drop _ => ((check_overload det queueLen now).1, true)

/-- What happens to one popped command at dispatch time. -/
inductive DispatchOutcome where
  | executed
  | request_dropped
  | device_terminated
deriving DecidableEq

/-- Modelled from the spec: the dispatch-time policy evaluation run when the
worker pops a command off the deadline queue.  The detector is updated on
every dequeue with the remaining queue length.  Prioritized commands are
always executed.  RefuseNewRequests never reacts at dispatch; Stop terminates
the device when the detector reports overload; Drop discards the command when
the detector reports overload and the gate fires. -/
def dispatch_command (p : LongQueuePolicy) (det : OverloadDetector)
    (remainingLen : Nat) (c : Command) (now : Nat) (u : ℚ) :
    OverloadDetector × DispatchOutcome :=
  match p with
  | .refuseNewRequests _ => ((check_overload det remainingLen now).1, .executed)
  | .stop =>
      let r := check_overload det remainingLen now
      if c.prioritized then (r.1, .executed)
      else if r.2 then (r.1, .device_terminated)
      else (r.1, .executed)
  | .drop ratio =>
      let r := check_overload det remainingLen now
      if c.prioritized then (r.1, .executed)
      else if r.2 && gate_fires ratio u then (r.1, .request_dropped)
      else (r.1, .executed)

/-- Modelled from the spec: the worker draining its inbox while dispatch is
held back.  Each pending request (command, enqueue time, gate draw) goes
through the admission check against the current deadline-queue length;
admitted commands increase that length.  Returns the final detector, the
final queue length, and for each command whether it was admitted. -/
def enqueue_all (p : LongQueuePolicy) (det : OverloadDetector) (queueLen : Nat) :
    List (Command × Nat × ℚ) → OverloadDetector × Nat × List (Command × Bool)
  | [] => (det, queueLen, [])
  | (c, now, u) :: rest =>
      let r := admit_command p det queueLen c now u
      let len2 := if r.2 then queueLen + 1 else queueLen
      let t := enqueue_all p r.1 len2 rest
      (t.1, t.2.1, (c, r.2) :: t.2.2)

/-- Modelled from the spec: the worker popping the queued commands in order
and dispatching each.  The remaining queue length seen by the detector is the
number of commands still queued behind the popped one.  When the Stop policy
fires, the popped command and every remaining queued command are resolved
with DeviceTerminated and the worker terminates as in the shutdown path (the
final Bool reports this termination, which resolves the device monitor). -/
def dispatch_all (p : LongQueuePolicy) (det : OverloadDetector) :
    List (Command × Nat × ℚ) → OverloadDetector × List DispatchOutcome × Bool
  | [] => (det, [], false)
  | (c, now, u) :: rest =>
      let r := dispatch_command p det rest.length c now u
      match r.2 with
      | .device_terminated =>
          (r.1, .device_terminated :: rest.map (fun _ => .device_terminated), true)
      | .executed =>
          let t := dispatch_all p r.1 rest
          (t.1, .executed :: t.2.1, t.2.2)
      | .request_dropped =>
          let t := dispatch_all p r.1 rest
          (t.1, .request_dropped :: t.2.1, t.2.2)

/-- The client-visible outcome of one request. -/
inductive Outcome where
  | ok
  | refused
  | dropped
  | terminated
deriving DecidableEq

/-- Modelled from the spec: one request submitted against an otherwise idle
device and driven to completion before the next one is submitted (the queue
is empty both at its admission and, once popped, behind it).  Refused
commands are resolved at admission; admitted ones take their dispatch
outcome. -/
def process_one (p : LongQueuePolicy) (det : OverloadDetector) (c : Command)
    (enqNow : Nat) (enqU : ℚ) (dispNow : Nat) (dispU : ℚ) :
    OverloadDetector × Outcome :=
  let a := admit_command p det 0 c enqNow enqU
  if a.2 then
    let d := dispatch_command p a.1 0 c dispNow dispU
    (d.1,
      match d.2 with
      | .executed => .ok
      | .request_dropped => .dropped
      | .device_terminated => .terminated)
  else (a.1, .refused)

/-!
### Storage usage model (for the usage_range claims)

The storage engine itself is not under src/; the usage_range_works test in
src/device/mod.rs pins its observable accounting with a 512-byte block size:
a 510-byte lump occupies one block, a 511-byte lump two blocks, a 3-byte lump
one block.  The unique per-lump overhead consistent with these data points is
2 bytes: a lump of n bytes occupies ceil((n + 2) / block_size) blocks.
-/

/-- Round n up to the next multiple of bs. -/
def ceil_to_block (bs n : Nat) : Nat := ((n + bs - 1) / bs) * bs

/-- Modelled from the spec: the per-lump on-disk overhead of the storage
engine (not under src/), fixed at 2 bytes by the usage_range_works test
(510 bytes fit one 512-byte block, 511 bytes need two). -/
def lump_overhead : Nat := 2

/-- Modelled from the spec: the bytes of storage one lump of n data bytes
consumes, as observed by usage_range. -/
def lump_disk_usage (bs n : Nat) : Nat := ceil_to_block bs (n + lump_overhead)

/-- Modelled from the spec: put(id, data) stores data under id, replacing any
existing lump with that id; it returns true iff the id did not previously
exist.  The store is an association list from lump id to data length. -/
def put (st : List (Nat × Nat)) (i n : Nat) : List (Nat × Nat) × Bool :=
  if st.any (fun q => q.1 = i) then
    (st.map (fun q => if q.1 = i then (i, n) else q), false)
  else
    ((i, n) :: st, true)

/-- Modelled from the spec: usage_range([s,e)) sums the storage consumed by
the lumps whose id lies in the half-open range, aligned to the block size. -/
def usage_range (st : List (Nat × Nat)) (s e bs : Nat) : Nat :=
  (st.filter (fun q => decide (s ≤ q.1) && decide (q.1 < e))).foldr
    (fun q acc => lump_disk_usage bs q.2 + acc) 0

/-!
### Device front object (src/device/mod.rs)
-/

/-- The Command variants carried over the inbox (the command module is not
under src/; the variant list is the one the spec enumerates). -/
inductive Op where
  | putCmd
  | getCmd
  | headCmd
  | deleteCmd
  | deleteRangeCmd
  | listCmd
  | listRangeCmd
  | usageRangeCmd
  | journalSyncCmd
  | waitForRunningCmd
  | stopCmd
deriving DecidableEq

/-- A fully built command as submitted over the inbox: operation variant,
deadline, and the three builder flags. -/
structure CommandRec where
  op : Op
  deadline : Deadline
  prioritized : Bool
  wait_for_running : Bool
  journal_sync : Bool
deriving DecidableEq

/-- Modelled from the spec: the request-builder state (request module not
under src/): accumulated optional modifiers, deadline defaulting to
Infinity and all flags off. -/
structure DeviceRequest where
  deadline : Deadline
  prioritized : Bool
  wait_for_running : Bool
  journal_sync : Bool
deriving DecidableEq

/-- Modelled from the spec: a fresh builder as returned by
DeviceHandle::request(). -/
def DeviceRequest.new : DeviceRequest :=
  { deadline := .infinity, prioritized := false,
    wait_for_running := false, journal_sync := false }

/-- Modelled from the spec: the deadline(d) modifier. -/
def DeviceRequest.set_deadline (r : DeviceRequest) (d : Deadline) : DeviceRequest :=
  { r with deadline := d }

/-- Modelled from the spec: the wait_for_running() modifier. -/
def DeviceRequest.set_wait_for_running (r : DeviceRequest) : DeviceRequest :=
  { r with wait_for_running := true }

/-- Modelled from the spec: the prioritized() modifier. -/
def DeviceRequest.set_prioritized (r : DeviceRequest) : DeviceRequest :=
  { r with prioritized := true }

/-- Modelled from the spec: the stop() terminal operation submits exactly one
Stop command built from the accumulated modifiers and returns without
waiting; the returned list is what crossed the inbox. -/
def DeviceRequest.stop (r : DeviceRequest) : List CommandRec :=
  [{ op := .stopCmd, deadline := r.deadline, prioritized := r.prioritized,
     wait_for_running := r.wait_for_running, journal_sync := r.journal_sync }]

/-- The Device front object state relevant to stop and drop: its is_stopped
flag (src/device/mod.rs, struct Device). -/
structure Device where
  is_stopped : Bool
deriving DecidableEq

/-- Device::stop from src/device/mod.rs: build a request, apply
wait_for_running then the given deadline, and call the stop terminal.  The
result is the list of commands this enqueues; the function returns as soon
as they are submitted. -/
def Device.stop (_d : Device) (deadline : Deadline) : List CommandRec :=
  ((DeviceRequest.new.set_wait_for_running).set_deadline deadline).stop

/-- The Drop impl for Device from src/device/mod.rs: if the device is not
already stopped, issue stop(Deadline::Immediate); otherwise do nothing.  The
result is the list of commands the destructor enqueues (it never waits). -/
def Device.drop_device (d : Device) : List CommandRec :=
  if !d.is_stopped then d.stop .immediate else []

/-- The three shapes the monitor poll result can take, collapsing
Poll<(), Error>: Ok(NotReady), Ok(Ready(())), or Err(_). -/
inductive PollResult where
  | notReady
  | ready
  | errored
deriving DecidableEq

/-- The Future impl for Device from src/device/mod.rs: poll the monitor; if
the result is anything other than Ok(NotReady) — Ready or an error — set the
is_stopped flag; return the monitor result unchanged. -/
def Device.poll (d : Device) (monitorResult : PollResult) : Device × PollResult :=
  match monitorResult with
  | .notReady => (d, .notReady)
  | .ready => ({ d with is_stopped := true }, .ready)
  | .errored => ({ d with is_stopped := true }, .errored)

/-!
### Lump-data allocation (DeviceHandle, src/device/mod.rs)
-/

/-- The error kinds the core produces. -/
inductive ErrorKind where
  | invalidInput
  | requestRefused
  | requestDropped
  | deviceBusy
  | deviceTerminated
deriving DecidableEq

/-- A lump data buffer: its contents, its capacity, and the block size it is
aligned to (none for a plain, unaligned buffer). -/
structure LumpData where
  contents : List Nat
  capacity : Nat
  alignment : Option Nat
deriving DecidableEq

/-- Modelled from the spec: LumpData::aligned_allocate(size, block_size)
(the lump module is not under src/): fails with InvalidInput when size
exceeds the engine maximum, otherwise returns a zero-initialised buffer of
the requested size whose capacity is rounded up to a multiple of the block
size and which is aligned to that block size. -/
def aligned_allocate (maxSize size bs : Nat) : Except ErrorKind LumpData :=
  if maxSize < size then .error .invalidInput
  else .ok { contents := List.replicate size 0,
             capacity := ceil_to_block bs size,
             alignment := some bs }

/-- Modelled from the spec: LumpData::new(data) (the lump module is not under
src/): fails with InvalidInput when the data exceeds the engine maximum,
otherwise wraps the bytes in a plain, unaligned buffer. -/
def lump_data_new (maxSize : Nat) (data : List Nat) : Except ErrorKind LumpData :=
  if maxSize < data.length then .error .invalidInput
  else .ok { contents := data, capacity := data.length, alignment := none }

/-- DeviceHandle::allocate_lump_data from src/device/mod.rs.  The storage
block size is visible through the metrics registry exactly while the device
is Running; that visibility is the Option argument.  When visible, allocate
aligned against that block size; otherwise (Starting or Stopped) allocate a
plain buffer of uninitialised bytes, modelled as zeros. -/
def allocate_lump_data (maxSize : Nat) (storageBlockSize : Option Nat)
    (size : Nat) : Except ErrorKind LumpData :=
  match storageBlockSize with
  | some bs => aligned_allocate maxSize size bs
  | none => lump_data_new maxSize (List.replicate size 0)

/-- Overwriting a buffer in place with bytes of the same length, as
as_bytes_mut().copy_from_slice(bytes) does: capacity and alignment are
untouched. -/
def LumpData.copy_from (d : LumpData) (b : List Nat) : LumpData :=
  { d with contents := b }

/-- DeviceHandle::allocate_lump_data_with_bytes from src/device/mod.rs:
allocate a buffer for bytes.len() bytes and copy the bytes into it. -/
def allocate_lump_data_with_bytes (maxSize : Nat) (storageBlockSize : Option Nat)
    (b : List Nat) : Except ErrorKind LumpData :=
  (allocate_lump_data maxSize storageBlockSize b.length).map
    (fun d => d.copy_from b)

/-- The specification-side composition that allocate_lump_data_with_bytes is
claimed to be equivalent to: allocate a buffer for the byte count with
allocate_lump_data, then copy the bytes into it. -/
def allocate_then_copy (maxSize : Nat) (storageBlockSize : Option Nat)
    (b : List Nat) : Except ErrorKind LumpData :=
  match allocate_lump_data maxSize storageBlockSize b.length with
  | .error e => .error e
  | .ok d => .ok (d.copy_from b)

/-!
### Theorems
-/

/-- A decidable zero lower bound on a natural number always evaluates to
true. -/
theorem decide_zero_le (n : Nat) : decide (0 ≤ n) = true :=
  decide_eq_true (Nat.zero_le n)

/-- C4: for every overload policy, every detector state, every queue length,
time and gate draw, a prioritized command is admitted at enqueue time,
executed at dispatch time, and a prioritized request driven to completion
succeeds: it is never refused and never dropped. -/
theorem prioritized_bypasses_all_policies (p : LongQueuePolicy)
    (det : OverloadDetector) (len now : Nat) (u : ℚ)
    (enqNow dispNow : Nat) (enqU dispU : ℚ) :
    (admit_command p det len ⟨true⟩ now u).2 = true ∧
    (dispatch_command p det len ⟨true⟩ now u).2 = .executed ∧
    (process_one p det ⟨true⟩ enqNow enqU dispNow dispU).2 = .ok := by
  cases p <;> simp [admit_command, dispatch_command, process_one]

/-- C7: Device::stop(deadline) enqueues exactly one Stop command carrying the
given deadline with the wait_for_running flag set (and no other modifier),
independently of the device state; the Drop impl issues exactly
stop(Deadline::Immediate) when is_stopped is false and nothing when it is
true.  Both functions merely return the submitted commands: neither waits
for the worker. -/
theorem device_stop_enqueues_single_stop (d : Device) (dl : Deadline) :
    d.stop dl = [{ op := .stopCmd, deadline := dl, prioritized := false,
                   wait_for_running := true, journal_sync := false }] ∧
    (d.stop dl).length = 1 ∧
    Device.drop_device ⟨false⟩ = Device.stop ⟨false⟩ .immediate ∧
    Device.drop_device ⟨true⟩ = [] := by
  simp [Device.stop, Device.drop_device, DeviceRequest.stop, DeviceRequest.new,
        DeviceRequest.set_wait_for_running, DeviceRequest.set_deadline]

/-- C9: polling the Device future with a Ready or error monitor result sets
the is_stopped flag, so a subsequent drop issues no stop command; polling a
not-yet-stopped device with NotReady leaves the flag false, and drop then
still issues stop(Immediate). -/
theorem device_poll_sets_is_stopped (d : Device) :
    (d.poll .ready).1.is_stopped = true ∧
    (d.poll .errored).1.is_stopped = true ∧
    Device.drop_device (d.poll .ready).1 = [] ∧
    Device.drop_device (d.poll .errored).1 = [] ∧
    ((Device.mk false).poll .notReady).1.is_stopped = false ∧
    Device.drop_device ((Device.mk false).poll .notReady).1
      = Device.stop (Device.mk false) .immediate := by
  simp [Device.poll, Device.drop_device]

/-- C1: with the RefuseNewRequests policy at busy_threshold 3,
max_keep_busy_duration 0 and ratio 1.0, five non-prioritized puts enqueued
while the worker's storage initialization is held back produce exactly four
admissions and one refusal, the refusal being the fifth enqueue (the detector
records busy_since at the fourth push, the one that crosses the threshold,
so only the fifth enqueue observes a busy duration ≥ 0); all four admitted
commands are then dispatched and executed, so the outcome is four successes
and one RequestRefused.  The enqueue times, dispatch times and the first
four gate draws are arbitrary; the fifth draw is any valid uniform sample. -/
theorem refuse_policy_threshold3_five_puts
    (t1 t2 t3 t4 t5 s1 s2 s3 s4 : Nat) (u1 u2 u3 u4 u5 v1 v2 v3 v4 : ℚ)
    (h5 : u5 < 1) :
    (enqueue_all (.refuseNewRequests 1) ⟨3, 0, none⟩ 0
        [(⟨false⟩, t1, u1), (⟨false⟩, t2, u2), (⟨false⟩, t3, u3),
         (⟨false⟩, t4, u4), (⟨false⟩, t5, u5)]).2.2.map Prod.snd
      = [true, true, true, true, false] ∧
    (enqueue_all (.refuseNewRequests 1) ⟨3, 0, none⟩ 0
        [(⟨false⟩, t1, u1), (⟨false⟩, t2, u2), (⟨false⟩, t3, u3),
         (⟨false⟩, t4, u4), (⟨false⟩, t5, u5)]).1.busy_since = some t4 ∧
    (dispatch_all (.refuseNewRequests 1)
        (enqueue_all (.refuseNewRequests 1) ⟨3, 0, none⟩ 0
          [(⟨false⟩, t1, u1), (⟨false⟩, t2, u2), (⟨false⟩, t3, u3),
           (⟨false⟩, t4, u4), (⟨false⟩, t5, u5)]).1
        [(⟨false⟩, s1, v1), (⟨false⟩, s2, v2), (⟨false⟩, s3, v3),
         (⟨false⟩, s4, v4)]).2.1
      = [.executed, .executed, .executed, .executed] := by
  simp [enqueue_all, admit_command, check_overload, gate_fires, dispatch_all,
        dispatch_command, decide_eq_true h5, decide_zero_le]

/-- Witness for the C1 theorem at concrete inputs: all times zero and all
gate draws zero (a valid uniform sample, 0 < 1). -/
theorem refuse_policy_threshold3_five_puts_witness :
    (enqueue_all (.refuseNewRequests 1) ⟨3, 0, none⟩ 0
        [(⟨false⟩, 0, 0), (⟨false⟩, 0, 0), (⟨false⟩, 0, 0),
         (⟨false⟩, 0, 0), (⟨false⟩, 0, 0)]).2.2.map Prod.snd
      = [true, true, true, true, false] ∧
    (enqueue_all (.refuseNewRequests 1) ⟨3, 0, none⟩ 0
        [(⟨false⟩, 0, 0), (⟨false⟩, 0, 0), (⟨false⟩, 0, 0),
         (⟨false⟩, 0, 0), (⟨false⟩, 0, 0)]).1.busy_since = some 0 ∧
    (dispatch_all (.refuseNewRequests 1)
        (enqueue_all (.refuseNewRequests 1) ⟨3, 0, none⟩ 0
          [(⟨false⟩, 0, 0), (⟨false⟩, 0, 0), (⟨false⟩, 0, 0),
           (⟨false⟩, 0, 0), (⟨false⟩, 0, 0)]).1
        [(⟨false⟩, 0, 0), (⟨false⟩, 0, 0), (⟨false⟩, 0, 0),
         (⟨false⟩, 0, 0)]).2.1
      = [.executed, .executed, .executed, .executed] :=
  refuse_policy_threshold3_five_puts 0 0 0 0 0 0 0 0 0 0 0 0 0 0 0 0 0 0
    (by norm_num)

/-- C2: with the Drop policy at busy_threshold 3, max_keep_busy_duration 0
and ratio 1.0, five non-prioritized puts enqueued while the worker's storage
initialization is held back are all admitted (Drop does not react at
admission; the detector becomes busy at the fourth push); at dispatch time
the first two pops happen while the remaining queue length is still at or
above the threshold, so exactly those two commands are dropped and the other
three execute: three successes and two RequestDropped.  All times and the
last three dispatch draws are arbitrary; the first two dispatch draws are
any valid uniform samples. -/
theorem drop_policy_threshold3_five_puts
    (t1 t2 t3 t4 t5 s1 s2 s3 s4 s5 : Nat) (u1 u2 u3 u4 u5 v3 v4 v5 : ℚ)
    (v1 v2 : ℚ) (h1 : v1 < 1) (h2 : v2 < 1) :
    (enqueue_all (.drop 1) ⟨3, 0, none⟩ 0
        [(⟨false⟩, t1, u1), (⟨false⟩, t2, u2), (⟨false⟩, t3, u3),
         (⟨false⟩, t4, u4), (⟨false⟩, t5, u5)]).2.2.map Prod.snd
      = [true, true, true, true, true] ∧
    (enqueue_all (.drop 1) ⟨3, 0, none⟩ 0
        [(⟨false⟩, t1, u1), (⟨false⟩, t2, u2), (⟨false⟩, t3, u3),
         (⟨false⟩, t4, u4), (⟨false⟩, t5, u5)]).1.busy_since = some t4 ∧
    (dispatch_all (.drop 1)
        (enqueue_all (.drop 1) ⟨3, 0, none⟩ 0
          [(⟨false⟩, t1, u1), (⟨false⟩, t2, u2), (⟨false⟩, t3, u3),
           (⟨false⟩, t4, u4), (⟨false⟩, t5, u5)]).1
        [(⟨false⟩, s1, v1), (⟨false⟩, s2, v2), (⟨false⟩, s3, v3),
         (⟨false⟩, s4, v4), (⟨false⟩, s5, v5)]).2.1
      = [.request_dropped, .request_dropped, .executed, .executed, .executed] := by
  simp [enqueue_all, admit_command, check_overload, gate_fires, dispatch_all,
        dispatch_command, decide_eq_true h1, decide_eq_true h2, decide_zero_le]

/-- Witness for the C2 theorem at concrete inputs: all times zero and all
gate draws zero. -/
theorem drop_policy_threshold3_five_puts_witness :
    (enqueue_all (.drop 1) ⟨3, 0, none⟩ 0
        [(⟨false⟩, 0, 0), (⟨false⟩, 0, 0), (⟨false⟩, 0, 0),
         (⟨false⟩, 0, 0), (⟨false⟩, 0, 0)]).2.2.map Prod.snd
      = [true, true, true, true, true] ∧
    (enqueue_all (.drop 1) ⟨3, 0, none⟩ 0
        [(⟨false⟩, 0, 0), (⟨false⟩, 0, 0), (⟨false⟩, 0, 0),
         (⟨false⟩, 0, 0), (⟨false⟩, 0, 0)]).1.busy_since = some 0 ∧
    (dispatch_all (.drop 1)
        (enqueue_all (.drop 1) ⟨3, 0, none⟩ 0
          [(⟨false⟩, 0, 0), (⟨false⟩, 0, 0), (⟨false⟩, 0, 0),
           (⟨false⟩, 0, 0), (⟨false⟩, 0, 0)]).1
        [(⟨false⟩, 0, 0), (⟨false⟩, 0, 0), (⟨false⟩, 0, 0),
         (⟨false⟩, 0, 0), (⟨false⟩, 0, 0)]).2.1
      = [.request_dropped, .request_dropped, .executed, .executed, .executed] :=
  drop_policy_threshold3_five_puts 0 0 0 0 0 0 0 0 0 0 0 0 0 0 0 0 0 0 0 0
    (by norm_num) (by norm_num)

/-- C3: the first evaluation of the overload detector after it becomes busy
never reports overload (it only records busy_since: the duration measurement
begins at that evaluation); consequently, with the RefuseNewRequests policy
at busy_threshold 0, max_keep_busy_duration 0 and ratio 1.0, a first
non-prioritized put succeeds, a second non-prioritized put is refused with
RequestRefused, and a subsequent prioritized put succeeds.  All times and
the unused draws are arbitrary; the second enqueue draw is any valid
uniform sample. -/
theorem overload_first_call_and_refuse_threshold0
    (e1 d1 e2 d2 e3 d3 : Nat) (u1 w1 u3 w3 : ℚ) (u2 w2 : ℚ) (h2 : u2 < 1) :
    (∀ (det : OverloadDetector) (len now : Nat),
      det.busy_since = none → (check_overload det len now).2 = false) ∧
    (process_one (.refuseNewRequests 1) ⟨0, 0, none⟩ ⟨false⟩ e1 u1 d1 w1).2
      = .ok ∧
    (process_one (.refuseNewRequests 1)
        (process_one (.refuseNewRequests 1) ⟨0, 0, none⟩ ⟨false⟩ e1 u1 d1 w1).1
        ⟨false⟩ e2 u2 d2 w2).2 = .refused ∧
    (process_one (.refuseNewRequests 1)
        (process_one (.refuseNewRequests 1)
          (process_one (.refuseNewRequests 1) ⟨0, 0, none⟩ ⟨false⟩ e1 u1 d1 w1).1
          ⟨false⟩ e2 u2 d2 w2).1
        ⟨true⟩ e3 u3 d3 w3).2 = .ok := by
  refine ⟨fun det len now h => ?_, ?_⟩
  · simp only [check_overload, h]
    split <;> rfl
  · simp [process_one, admit_command, dispatch_command, check_overload,
          gate_fires, decide_eq_true h2, decide_zero_le]

/-- Witness for the C3 theorem: the first-call property applied to a
concrete detector that is busy but not yet measuring, and the three-put
scenario at concrete times and draws. -/
theorem overload_first_call_and_refuse_threshold0_witness :
    (check_overload ⟨5, 7, none⟩ 9 3).2 = false ∧
    (process_one (.refuseNewRequests 1) ⟨0, 0, none⟩ ⟨false⟩ 0 0 0 0).2
      = .ok ∧
    (process_one (.refuseNewRequests 1)
        (process_one (.refuseNewRequests 1) ⟨0, 0, none⟩ ⟨false⟩ 0 0 0 0).1
        ⟨false⟩ 1 0 1 0).2 = .refused ∧
    (process_one (.refuseNewRequests 1)
        (process_one (.refuseNewRequests 1)
          (process_one (.refuseNewRequests 1) ⟨0, 0, none⟩ ⟨false⟩ 0 0 0 0).1
          ⟨false⟩ 1 0 1 0).1
        ⟨true⟩ 2 0 2 0).2 = .ok := by
  have h := overload_first_call_and_refuse_threshold0 0 0 1 1 2 2 0 0 0 0 0 0
    (by norm_num)
  exact ⟨h.1 ⟨5, 7, none⟩ 9 3 rfl, h.2.1, h.2.2.1, h.2.2.2⟩

/-- C5: with the Stop policy at busy_threshold 0 (and zero busy duration), a
non-prioritized request driven to completion from any detector measurement
state fails with DeviceTerminated; and whenever the worker pops a command
while the detector is measuring (busy_since set, so with threshold 0 it
reports overload), that command and every remaining queued command are
resolved with DeviceTerminated and the worker terminates, which resolves the
device monitor (final flag true). -/
theorem stop_policy_threshold0_terminates
    (b : Option Nat) (e d : Nat) (u w : ℚ) :
    (process_one .stop ⟨0, 0, b⟩ ⟨false⟩ e u d w).2 = .terminated ∧
    (∀ (t d2 : Nat) (w2 : ℚ) (rest : List (Command × Nat × ℚ)),
      dispatch_all .stop ⟨0, 0, some t⟩ ((⟨false⟩, d2, w2) :: rest)
        = (⟨0, 0, some t⟩,
           .device_terminated :: rest.map (fun _ => .device_terminated),
           true)) := by
  constructor
  · cases b <;>
      simp [process_one, admit_command, dispatch_command, check_overload,
            decide_zero_le, Nat.zero_le]
  · intro t d2 w2 rest
    simp [dispatch_all, dispatch_command, check_overload, decide_zero_le,
          Nat.zero_le]

/-- C6 counterexample: the usage accounting pinned by the usage_range_works
test contradicts the increase formula ceil(n / block_size) * block_size.
With a 512-byte block size, putting 510 bytes under id 0 brings
usage_range([0,10)) to 512, and then putting 511 bytes under the fresh id 1
brings it to 1536: an increase of 1024, while the formula demands
ceil(511 / 512) * 512 = 512.  Moreover a put over an existing id replaces
the lump, so re-putting id 0 leaves the usage unchanged (an increase of
zero, which the formula also forbids). -/
theorem usage_put_increase_formula_counterexample :
    usage_range (put [] 0 510).1 0 10 512 = 512 ∧
    usage_range (put (put [] 0 510).1 1 511).1 0 10 512 = 1536 ∧
    usage_range (put (put [] 0 510).1 1 511).1 0 10 512
        - usage_range (put [] 0 510).1 0 10 512 ≠ ceil_to_block 512 511 ∧
    ceil_to_block 512 511 = 512 ∧
    (put (put (put [] 0 510).1 1 511).1 0 510).2 = false ∧
    usage_range (put (put (put [] 0 510).1 1 511).1 0 510).1 0 10 512
      = usage_range (put (put [] 0 510).1 1 511).1 0 10 512 ∧
    ceil_to_block 512 510 ≠ 0 := by decide

/-- C6 (amended): a put of n bytes under an id not already stored reports a
new insertion and increases usage_range over any range covering the id by
exactly ceil((n + 2) / block_size) * block_size, the 2 bytes being the
per-lump overhead the usage_range_works test observes. -/
theorem usage_range_fresh_put_increase (st : List (Nat × Nat))
    (i n s e bs : Nat) (hfresh : ∀ q ∈ st, q.1 ≠ i) (hs : s ≤ i)
    (he : i < e) :
    (put st i n).2 = true ∧
    usage_range (put st i n).1 s e bs
      = usage_range st s e bs + lump_disk_usage bs n := by
  have hany : (st.any fun q => decide (q.1 = i)) = false := by
    simp only [List.any_eq_false, decide_eq_true_eq]
    exact hfresh
  have hput : put st i n = ((i, n) :: st, true) := by
    simp [put, hany]
  refine ⟨by simp [hput], ?_⟩
  rw [hput]
  simp [usage_range, List.filter_cons, hs, he]
  omega

/-- Witness for the amended C6 theorem: a 510-byte put under the fresh id 0
raises usage_range([0,10)) with 512-byte blocks by exactly one block. -/
theorem usage_range_fresh_put_increase_witness :
    (put [] 0 510).2 = true ∧
    usage_range (put [] 0 510).1 0 10 512
      = usage_range [] 0 10 512 + lump_disk_usage 512 510 :=
  usage_range_fresh_put_increase [] 0 510 0 10 512 (by simp) (by norm_num)
    (by norm_num)

/-- C8: allocate_lump_data returns an aligned buffer (alignment recorded,
capacity rounded up to the block size) when the storage block size is
visible through the metrics registry, an unaligned buffer of exactly the
requested size when it is not, and fails with InvalidInput in either case
whenever the size exceeds the engine maximum. -/
theorem allocate_lump_data_contract (maxSize size bs : Nat) :
    (size ≤ maxSize →
      allocate_lump_data maxSize (some bs) size
        = .ok { contents := List.replicate size 0,
                capacity := ceil_to_block bs size, alignment := some bs }) ∧
    (size ≤ maxSize →
      allocate_lump_data maxSize none size
        = .ok { contents := List.replicate size 0,
                capacity := size, alignment := none }) ∧
    (maxSize < size →
      allocate_lump_data maxSize (some bs) size = .error .invalidInput ∧
      allocate_lump_data maxSize none size = .error .invalidInput) := by
  refine ⟨fun h => ?_, fun h => ?_, fun h => ?_⟩ <;>
    simp [allocate_lump_data, aligned_allocate, lump_data_new, h,
          Nat.not_lt.mpr]

/-- Witness for the C8 theorem: with engine maximum 10 and block size 4, a
3-byte request allocates aligned (capacity 4) when the block size is
visible and unaligned (capacity 3) when it is not, while an 11-byte request
fails with InvalidInput in both cases. -/
theorem allocate_lump_data_contract_witness :
    allocate_lump_data 10 (some 4) 3
      = .ok { contents := List.replicate 3 0, capacity := ceil_to_block 4 3,
              alignment := some 4 } ∧
    allocate_lump_data 10 none 3
      = .ok { contents := List.replicate 3 0, capacity := 3,
              alignment := none } ∧
    allocate_lump_data 10 (some 4) 11 = .error .invalidInput ∧
    allocate_lump_data 10 none 11 = .error .invalidInput :=
  ⟨(allocate_lump_data_contract 10 3 4).1 (by norm_num),
   (allocate_lump_data_contract 10 3 4).2.1 (by norm_num),
   ((allocate_lump_data_contract 10 11 4).2.2 (by norm_num)).1,
   ((allocate_lump_data_contract 10 11 4).2.2 (by norm_num)).2⟩

/-- C10: allocate_lump_data_with_bytes(b) coincides with allocating a buffer
for b.length bytes via allocate_lump_data and then copying b into it: it
fails with exactly the same error exactly when the allocation fails, and on
success its contents equal b while its alignment and capacity are those of
the underlying allocation. -/
theorem allocate_with_bytes_refines_alloc_then_copy (maxSize : Nat)
    (storageBlockSize : Option Nat) (b : List Nat) :
    allocate_lump_data_with_bytes maxSize storageBlockSize b
      = allocate_then_copy maxSize storageBlockSize b ∧
    (∀ e, allocate_lump_data_with_bytes maxSize storageBlockSize b = .error e
        ↔ allocate_lump_data maxSize storageBlockSize b.length = .error e) ∧
    (∀ d, allocate_lump_data_with_bytes maxSize storageBlockSize b = .ok d →
      d.contents = b ∧
      ∀ d0, allocate_lump_data maxSize storageBlockSize b.length = .ok d0 →
        d.alignment = d0.alignment ∧ d.capacity = d0.capacity) := by
  cases halloc : allocate_lump_data maxSize storageBlockSize b.length with
  | error err =>
      simp [allocate_lump_data_with_bytes, allocate_then_copy, halloc,
            Except.map]
  | ok d0 =>
      refine ⟨?_, ?_, ?_⟩
      · simp [allocate_lump_data_with_bytes, allocate_then_copy, halloc,
              Except.map]
      · intro e
        simp [allocate_lump_data_with_bytes, halloc, Except.map]
      · intro d hd
        simp only [allocate_lump_data_with_bytes, halloc, Except.map] at hd
        cases hd
        refine ⟨rfl, fun d1 hd1 => ?_⟩
        injection hd1 with h13
        subst h13
        exact ⟨rfl, rfl⟩

/-- Witness for the C10 theorem: copying the three bytes 1, 2, 3 into an
aligned 3-byte allocation (engine maximum 10, block size 4) yields contents
equal to the bytes while keeping the allocation's alignment and capacity. -/
theorem allocate_with_bytes_refines_witness :
    allocate_lump_data_with_bytes 10 (some 4) [1, 2, 3]
      = allocate_then_copy 10 (some 4) [1, 2, 3] ∧
    (⟨[1, 2, 3], 4, some 4⟩ : LumpData).contents = [1, 2, 3] ∧
    (⟨[1, 2, 3], 4, some 4⟩ : LumpData).alignment
      = (⟨List.replicate 3 0, 4, some 4⟩ : LumpData).alignment ∧
    (⟨[1, 2, 3], 4, some 4⟩ : LumpData).capacity
      = (⟨List.replicate 3 0, 4, some 4⟩ : LumpData).capacity := by
  have h := allocate_with_bytes_refines_alloc_then_copy 10 (some 4) [1, 2, 3]
  have hok := h.2.2 ⟨[1, 2, 3], 4, some 4⟩ (by rfl)
  have h2 := hok.2 ⟨List.replicate 3 0, 4, some 4⟩ (by rfl)
  exact ⟨h.1, hok.1, h2.1, h2.2⟩

end Cannyls
